import Mathlib

/-!
Shallow embedding of the `pfsm` repository (two Rust source files).

`src/fsm.rs` defines an event-driven state machine `StateMachine<S, E>`:
a current state plus a `HashMap<(S, E), Transition<S>>`, where a
`Transition` carries a next state and an optional boxed action.
`trigger(event)` looks up `(current_state, event)`; on a hit it runs the
action (if any) and then writes the next state, returning `Ok(())`; on a
miss it returns `Err` with a message built from the event and the current
state.

`src/lib.rs` defines a direct-transition machine `FSM<T>`: a current
state plus a `HashMap<(T, T), bool>` schema.  `change_state(to_state)`
looks up `(current_state, to_state)` and panics (via `expect`) with a
message naming both states when the key is absent; otherwise it writes
`to_state`.

Modelling choices:
* Rust's `HashMap` is embedded as an association list `HMap` whose
  `insert` removes any previous binding of the key (so keys stay unique,
  as in a hash map) and whose `get?` scans for the key.
* The boxed action `Box<dyn Fn()>` is opaque side-effecting code; it is
  embedded as a value of an opaque type parameter `A`, and execution is
  made observable through a trace: `trigger` returns, besides the result
  and the updated machine, the list of observable steps it performed
  (`runAction a` for each action call, `setState s` for the state write),
  in order.
* A Rust panic terminates the call without producing a new machine; it is
  embedded as `Except.error msg`, and the formatting of `{:?}` debug
  output is supplied by an explicit function `T → String`.
-/

/-- Association-list model of `std::collections::HashMap`. -/
abbrev HMap (K V : Type) : Type := List (K × V)

/-- Embeds `HashMap::new()`. -/
def HMap.empty {K V : Type} : HMap K V := []

/-- Embeds `HashMap::insert`: any previous binding of the key is replaced. -/
def HMap.insert {K V : Type} [DecidableEq K] (m : HMap K V) (k : K) (v : V) :
    HMap K V :=
  (k, v) :: m.filter (fun p => p.1 != k)

/-- Embeds `HashMap::get`. -/
def HMap.get? {K V : Type} [DecidableEq K] (m : HMap K V) (k : K) : Option V :=
  (m.find? (fun p => p.1 == k)).map Prod.snd

/-- The keys of an `HMap`, used to state uniqueness of entries. -/
def HMap.keys {K V : Type} (m : HMap K V) : List K := m.map Prod.fst

theorem HMap.get?_empty {K V : Type} [DecidableEq K] (k : K) :
    (HMap.empty : HMap K V).get? k = none := rfl

theorem HMap.get?_insert_self {K V : Type} [DecidableEq K]
    (m : HMap K V) (k : K) (v : V) : (m.insert k v).get? k = some v := by
  simp [HMap.insert, HMap.get?, List.find?]

theorem HMap.find?_filter_ne {K V : Type} [DecidableEq K]
    (m : List (K × V)) (k k' : K) (h : k' ≠ k) :
    (m.filter (fun p => p.1 != k)).find? (fun p => p.1 == k')
      = m.find? (fun p => p.1 == k') := by
  induction m with
  | nil => rfl
  | cons p m ih =>
    rw [List.filter_cons]
    by_cases hp : p.1 = k
    · have hne : (p.1 == k') = false := by simp [hp, Ne.symm h]
      simp only [hp, bne_self_eq_false]
      rw [if_neg (by simp), ih, List.find?_cons_of_neg _ (by simp [hne])]
    · by_cases hp' : p.1 = k'
      · simp only [bne_iff_ne, ne_eq, hp, not_false_eq_true, if_true]
        rw [List.find?_cons_of_pos _ (by simp [hp']),
          List.find?_cons_of_pos _ (by simp [hp'])]
      · simp only [bne_iff_ne, ne_eq, hp, not_false_eq_true, if_true]
        rw [List.find?_cons_of_neg _ (by simp [hp']),
          List.find?_cons_of_neg _ (by simp [hp']), ih]

theorem HMap.get?_insert_ne {K V : Type} [DecidableEq K]
    (m : HMap K V) (k k' : K) (v : V) (h : k' ≠ k) :
    (m.insert k v).get? k' = m.get? k' := by
  unfold HMap.insert HMap.get?
  rw [List.find?_cons_of_neg _ (by simp [Ne.symm h]),
    HMap.find?_filter_ne m k k' h]

/-- Embeds `pub struct Transition<S: Copy> { next_state: S, action: Option<Action> }`
from `src/fsm.rs`; the boxed action is modelled by an opaque type `A`. -/
structure Transition (S A : Type) where
  next_state : S
  action : Option A
deriving DecidableEq

/-- Embeds `Transition::create(next_state, action)`. -/
def Transition.create {S A : Type} (next_state : S) (action : Option A) :
    Transition S A :=
  { next_state := next_state, action := action }

/-- One observable step performed during a `trigger` call: an action call
(`action()`) or the state write (`self.state = transition.next_state`). -/
inductive TraceEv (S A : Type) where
  | runAction : A → TraceEv S A
  | setState : S → TraceEv S A
deriving DecidableEq

/-- Embeds `pub struct StateMachine<S: Copy, E: Copy>` from `src/fsm.rs`. -/
structure StateMachine (S E A : Type) where
  state : S
  transitions : HMap (S × E) (Transition S A)

/-- Embeds `StateMachine::initialize(initial, transitions)` (named
`initializeMachine` here because the verbatim name is unavailable). -/
def StateMachine.initializeMachine {S E A : Type} (initial : S)
    (transitions : HMap (S × E) (Transition S A)) : StateMachine S E A :=
  { state := initial, transitions := transitions }

/-- Embeds `StateMachine::trigger(&mut self, event) -> Result<(), String>`.
Besides the `Result`, it returns the machine after the call and the trace
of observable steps in the order the Rust code performs them; `dbgS` and
`dbgE` supply the `{:?}` debug formatting of the generic types. -/
def StateMachine.trigger {S E A : Type} [DecidableEq S] [DecidableEq E]
    (dbgS : S → String) (dbgE : E → String)
    (m : StateMachine S E A) (event : E) :
    Except String Unit × StateMachine S E A × List (TraceEv S A) :=
  let key := (m.state, event)
  match m.transitions.get? key with
  | some transition =>
    (Except.ok (),
     { m with state := transition.next_state },
     (match transition.action with
      | some action => [TraceEv.runAction action]
      | none => []) ++ [TraceEv.setState transition.next_state])
  | none =>
    (Except.error ("No transition found for event \x27" ++ dbgE event
       ++ "\x27 from state \x27" ++ dbgS m.state ++ "\x27"),
     m, [])

/-- Embeds `StateMachine::state(&self) -> S` as an operation on the
borrowed machine: it returns the current state together with the machine
as the call leaves it. -/
def StateMachine.stateCall {S E A : Type} (m : StateMachine S E A) :
    S × StateMachine S E A :=
  (m.state, m)

/-- Embeds `struct FSM<T> { state: T, schema: HashMap<(T, T), bool> }`
from `src/lib.rs`. -/
structure FSM (T : Type) where
  state : T
  schema : HMap (T × T) Bool

/-- Embeds `FSM::state(&self) -> Option<&T>`. -/
def FSM.stateRef {T : Type} (m : FSM T) : Option T :=
  some m.state

/-- Embeds `FSM::state` as an operation on the borrowed machine: the
returned `Option` together with the machine as the call leaves it. -/
def FSM.stateCall {T : Type} (m : FSM T) : Option T × FSM T :=
  (some m.state, m)

/-- Embeds `FSM::new(initial)`. -/
def FSM.new {T : Type} (initial : T) : FSM T :=
  { state := initial, schema := HMap.empty }

/-- Embeds `FSM::from_schema(initial, schema)`: inserts every edge of the
slice, in order, with value `true`. -/
def FSM.from_schema {T : Type} [DecidableEq T] (initial : T)
    (schema : List (T × T)) : FSM T :=
  { state := initial,
    schema := schema.foldl (fun s si => s.insert si true) HMap.empty }

/-- Embeds `FSM::change_state(&mut self, to_state)`.  The `expect` panic
on a missing key is modelled as `Except.error` carrying the panic message;
`dbg` supplies the `{:?}` formatting of `T`. -/
def FSM.change_state {T : Type} [DecidableEq T] (dbg : T → String)
    (m : FSM T) (to_state : T) : Except String (FSM T) :=
  let key := (m.state, to_state)
  match m.schema.get? key with
  | some _ => Except.ok { m with state := to_state }
  | none =>
    Except.error ("unable change \x60" ++ dbg m.state ++ "\x60 -> \x60"
      ++ dbg to_state ++ "\x60")

/-- Embeds the `TrafficLightState` test enum (used as a concrete state
domain for witnesses). -/
inductive TrafficLightState where
  | Red
  | Yellow
  | Green
deriving DecidableEq

/-- Embeds the `TrafficLightEvent` test enum. -/
inductive TrafficLightEvent where
  | RedTimeout
  | Yellow2GreenTimeout
  | Yellow2RedTimeout
  | GreenTimeout
deriving DecidableEq

/-- The `{:?}` debug formatting of `TrafficLightState`. -/
def TrafficLightState.dbg : TrafficLightState → String
  | .Red => "Red"
  | .Yellow => "Yellow"
  | .Green => "Green"

/-- The `{:?}` debug formatting of `TrafficLightEvent`. -/
def TrafficLightEvent.dbg : TrafficLightEvent → String
  | .RedTimeout => "RedTimeout"
  | .Yellow2GreenTimeout => "Yellow2GreenTimeout"
  | .Yellow2RedTimeout => "Yellow2RedTimeout"
  | .GreenTimeout => "GreenTimeout"

/-- Embeds `create_traffic_light()` from the `src/fsm.rs` tests: the four
`HashMap::insert` calls in source order; the println actions are modelled
by their message strings. -/
def createTrafficLight :
    StateMachine TrafficLightState TrafficLightEvent String :=
  StateMachine.initializeMachine TrafficLightState.Red
    (((((HMap.empty).insert
        (TrafficLightState.Red, TrafficLightEvent.RedTimeout)
        (Transition.create TrafficLightState.Yellow (some "Red -> Yellow"))).insert
        (TrafficLightState.Yellow, TrafficLightEvent.Yellow2GreenTimeout)
        (Transition.create TrafficLightState.Green (some "Yellow -> Green"))).insert
        (TrafficLightState.Green, TrafficLightEvent.GreenTimeout)
        (Transition.create TrafficLightState.Yellow (some "Green -> Yellow"))).insert
        (TrafficLightState.Yellow, TrafficLightEvent.Yellow2RedTimeout)
        (Transition.create TrafficLightState.Red (some "Yellow -> Red")))

/-- Embeds `get_schema()` from the `src/lib.rs` tests. -/
def get_schema : List (TrafficLightState × TrafficLightState) :=
  [(.Red, .Yellow), (.Yellow, .Green), (.Green, .Yellow), (.Yellow, .Red)]

theorem HMap.get?_foldl_insert_true {K : Type} [DecidableEq K]
    (es : List K) (acc : HMap K Bool) (k : K) :
    (es.foldl (fun s si => s.insert si true) acc).get? k
      = if k ∈ es then some true else acc.get? k := by
  induction es generalizing acc with
  | nil => simp
  | cons e es ih =>
    rw [List.foldl_cons, ih]
    by_cases hk : k ∈ es
    · simp [hk, List.mem_cons]
    · by_cases hke : k = e
      · simp [hk, hke, List.mem_cons, HMap.get?_insert_self]
      · simp [hk, hke, List.mem_cons, HMap.get?_insert_ne _ _ _ _ hke]

theorem HMap.keys_nodup_insert {K V : Type} [DecidableEq K]
    (m : HMap K V) (k : K) (v : V) (h : m.keys.Nodup) :
    (m.insert k v).keys.Nodup := by
  unfold HMap.keys at h ⊢
  unfold HMap.insert
  rw [List.map_cons, List.nodup_cons]
  constructor
  · intro hmem
    rcases List.mem_map.mp hmem with ⟨p, hp, hfst⟩
    rcases List.mem_filter.mp hp with ⟨_, hne⟩
    exact (bne_iff_ne).mp hne hfst
  · exact (((List.filter_sublist m).map Prod.fst).nodup) h

theorem HMap.keys_nodup_foldl_insert_true {K : Type} [DecidableEq K]
    (es : List K) (acc : HMap K Bool) (h : acc.keys.Nodup) :
    (es.foldl (fun s si => s.insert si true) acc).keys.Nodup := by
  induction es generalizing acc with
  | nil => exact h
  | cons e es ih =>
    rw [List.foldl_cons]
    exact ih _ (HMap.keys_nodup_insert acc e true h)

/-- Claim C1: for every state and event whose pair is not a key of the
transition table, `trigger` returns the recoverable no-transition error,
whose message carries the attempted event and the current state, the
machine (hence `state()`) is left unchanged, and no action runs. -/
theorem claim_C1_no_transition {S E A : Type} [DecidableEq S] [DecidableEq E]
    (dbgS : S → String) (dbgE : E → String)
    (m : StateMachine S E A) (e : E)
    (h : m.transitions.get? (m.state, e) = none) :
    m.trigger dbgS dbgE e =
      (Except.error ("No transition found for event \x27" ++ dbgE e
        ++ "\x27 from state \x27" ++ dbgS m.state ++ "\x27"), m, [])
    ∧ ((m.trigger dbgS dbgE e).2.1).stateCall.1 = m.state := by
  constructor <;> simp [StateMachine.trigger, h, StateMachine.stateCall]

/-- Witness for C1: the traffic-light machine at `Red` rejects
`GreenTimeout`. -/
theorem claim_C1_witness :
    createTrafficLight.trigger TrafficLightState.dbg TrafficLightEvent.dbg
        TrafficLightEvent.GreenTimeout =
      (Except.error ("No transition found for event \x27"
        ++ TrafficLightEvent.dbg TrafficLightEvent.GreenTimeout
        ++ "\x27 from state \x27"
        ++ TrafficLightState.dbg createTrafficLight.state ++ "\x27"),
       createTrafficLight, [])
    ∧ ((createTrafficLight.trigger TrafficLightState.dbg TrafficLightEvent.dbg
        TrafficLightEvent.GreenTimeout).2.1).stateCall.1
        = createTrafficLight.state :=
  claim_C1_no_transition TrafficLightState.dbg TrafficLightEvent.dbg
    createTrafficLight TrafficLightEvent.GreenTimeout (by decide)

/-- Claim C2: for every pair that is a key of the transition table mapping
to a transition `t`, `trigger` returns success, the machine's state becomes
`t.next_state` (so `state()` returns it), and the observable trace is the
action (exactly once, when present) strictly followed by the state write. -/
theorem claim_C2_transition {S E A : Type} [DecidableEq S] [DecidableEq E]
    (dbgS : S → String) (dbgE : E → String)
    (m : StateMachine S E A) (e : E) (t : Transition S A)
    (h : m.transitions.get? (m.state, e) = some t) :
    m.trigger dbgS dbgE e =
      (Except.ok (), { m with state := t.next_state },
       (match t.action with
        | some a => [TraceEv.runAction a]
        | none => []) ++ [TraceEv.setState t.next_state])
    ∧ ((m.trigger dbgS dbgE e).2.1).stateCall.1 = t.next_state := by
  constructor <;> simp [StateMachine.trigger, h, StateMachine.stateCall]

/-- Witness for C2: the traffic-light machine at `Red` accepts
`RedTimeout`, runs the `Red -> Yellow` action once before the state write,
and moves to `Yellow`. -/
theorem claim_C2_witness :
    createTrafficLight.trigger TrafficLightState.dbg TrafficLightEvent.dbg
        TrafficLightEvent.RedTimeout =
      (Except.ok (),
       { createTrafficLight with state := TrafficLightState.Yellow },
       (match (Transition.create TrafficLightState.Yellow
          (some "Red -> Yellow")).action with
        | some a => [TraceEv.runAction a]
        | none => []) ++ [TraceEv.setState TrafficLightState.Yellow])
    ∧ ((createTrafficLight.trigger TrafficLightState.dbg
        TrafficLightEvent.dbg TrafficLightEvent.RedTimeout).2.1).stateCall.1
        = TrafficLightState.Yellow :=
  claim_C2_transition TrafficLightState.dbg TrafficLightEvent.dbg
    createTrafficLight TrafficLightEvent.RedTimeout
    (Transition.create TrafficLightState.Yellow (some "Red -> Yellow"))
    (by decide)

/-- Claim C3: for every pair `(current state, to_state)` absent from the
schema, `change_state` is the fatal `expect` panic: it produces the panic
message naming both states and never produces a machine, so the machine is
never left in `to_state` (the pre-call machine still holds the old state). -/
theorem claim_C3_fatal_change {T : Type} [DecidableEq T] (dbg : T → String)
    (m : FSM T) (to_state : T)
    (h : m.schema.get? (m.state, to_state) = none) :
    m.change_state dbg to_state =
      Except.error ("unable change \x60" ++ dbg m.state ++ "\x60 -> \x60"
        ++ dbg to_state ++ "\x60")
    ∧ (m.change_state dbg to_state).isOk = false := by
  constructor <;> simp [FSM.change_state, h, Except.isOk, Except.toBool]

/-- Witness for C3: the direct traffic-light machine at `Red` has no
`Red -> Green` edge, so `change_state(Green)` is the fatal panic. -/
theorem claim_C3_witness :
    (FSM.from_schema TrafficLightState.Red get_schema).change_state
        TrafficLightState.dbg TrafficLightState.Green =
      Except.error ("unable change \x60"
        ++ TrafficLightState.dbg
            (FSM.from_schema TrafficLightState.Red get_schema).state
        ++ "\x60 -> \x60" ++ TrafficLightState.dbg TrafficLightState.Green
        ++ "\x60")
    ∧ ((FSM.from_schema TrafficLightState.Red get_schema).change_state
        TrafficLightState.dbg TrafficLightState.Green).isOk = false :=
  claim_C3_fatal_change TrafficLightState.dbg
    (FSM.from_schema TrafficLightState.Red get_schema)
    TrafficLightState.Green (by decide)

/-- Claim C4: for every pair `(current state, to_state)` present in the
schema, `change_state` succeeds without panicking and commits the state to
`to_state`, which `state()` subsequently returns. -/
theorem claim_C4_change_ok {T : Type} [DecidableEq T] (dbg : T → String)
    (m : FSM T) (to_state : T) (b : Bool)
    (h : m.schema.get? (m.state, to_state) = some b) :
    m.change_state dbg to_state = Except.ok { m with state := to_state }
    ∧ ({ m with state := to_state } : FSM T).stateCall.1 = some to_state := by
  constructor <;> simp [FSM.change_state, h, FSM.stateCall]

/-- Witness for C4: the direct traffic-light machine at `Red` has a
`Red -> Yellow` edge, so `change_state(Yellow)` commits `Yellow`. -/
theorem claim_C4_witness :
    (FSM.from_schema TrafficLightState.Red get_schema).change_state
        TrafficLightState.dbg TrafficLightState.Yellow =
      Except.ok { FSM.from_schema TrafficLightState.Red get_schema with
        state := TrafficLightState.Yellow }
    ∧ ({ FSM.from_schema TrafficLightState.Red get_schema with
        state := TrafficLightState.Yellow } : FSM TrafficLightState).stateCall.1
        = some TrafficLightState.Yellow :=
  claim_C4_change_ok TrafficLightState.dbg
    (FSM.from_schema TrafficLightState.Red get_schema)
    TrafficLightState.Yellow true (by decide)

/-- Claim C8: `new(initial)` always yields a machine whose state is
`initial` and whose schema is empty, so every `change_state` call on it,
for any target, is the fatal panic and never succeeds. -/
theorem claim_C8_new_empty {T : Type} [DecidableEq T] (initial : T)
    (dbg : T → String) (t : T) :
    (FSM.new initial).state = initial
    ∧ (FSM.new initial).schema = HMap.empty
    ∧ (FSM.new initial).change_state dbg t =
        Except.error ("unable change \x60" ++ dbg initial ++ "\x60 -> \x60"
          ++ dbg t ++ "\x60")
    ∧ ((FSM.new initial).change_state dbg t).isOk = false :=
  ⟨rfl, rfl, rfl, rfl⟩

/-- Claim C10: the direct variant's `state()` accessor always returns
`Some` of the current state; the `None` case never occurs. -/
theorem claim_C10_state_some {T : Type} (m : FSM T) :
    m.stateRef = some m.state ∧ m.stateRef.isSome = true :=
  ⟨rfl, rfl⟩

/-- Claim C7: in both variants `state()` is pure and idempotent: the call
leaves the machine exactly as it was, always succeeds, and repeated calls
without an intervening mutator return the same result. -/
theorem claim_C7_state_pure {S E A T : Type}
    (me : StateMachine S E A) (md : FSM T) :
    me.stateCall = (me.state, me)
    ∧ (me.stateCall.2).stateCall.1 = me.stateCall.1
    ∧ md.stateCall = (some md.state, md)
    ∧ (md.stateCall.2).stateCall.1 = md.stateCall.1 :=
  ⟨rfl, rfl, rfl, rfl⟩

/-- Claim C6: the transition table is fixed at construction: `trigger`
(success or failure), a successful `change_state`, and `state()` all leave
the table exactly as it was. -/
theorem claim_C6_table_immutable {S E A T : Type}
    [DecidableEq S] [DecidableEq E] [DecidableEq T]
    (dbgS : S → String) (dbgE : E → String) (dbg : T → String)
    (me : StateMachine S E A) (e : E) (md : FSM T) (t : T) :
    ((me.trigger dbgS dbgE e).2.1).transitions = me.transitions
    ∧ (me.stateCall.2).transitions = me.transitions
    ∧ (∀ m', md.change_state dbg t = Except.ok m' → m'.schema = md.schema)
    ∧ (md.stateCall.2).schema = md.schema := by
  refine ⟨?_, rfl, ?_, rfl⟩
  · rcases hg : me.transitions.get? (me.state, e) with _ | tr <;>
      simp [StateMachine.trigger, hg]
  · intro m' hm'
    rcases hg : md.schema.get? (md.state, t) with _ | b
    · simp [FSM.change_state, hg] at hm'
    · simp [FSM.change_state, hg] at hm'
      subst hm'
      rfl

/-- Witness for C6: concrete instances — a `trigger` call on the
traffic-light machine keeps its table, and the successful
`change_state(Yellow)` on the direct machine keeps its schema. -/
theorem claim_C6_witness :
    ((createTrafficLight.trigger TrafficLightState.dbg TrafficLightEvent.dbg
        TrafficLightEvent.RedTimeout).2.1).transitions
      = createTrafficLight.transitions
    ∧ (FSM.from_schema TrafficLightState.Yellow get_schema).schema
      = (FSM.from_schema TrafficLightState.Red get_schema).schema :=
  ⟨(claim_C6_table_immutable TrafficLightState.dbg TrafficLightEvent.dbg
      TrafficLightState.dbg createTrafficLight TrafficLightEvent.RedTimeout
      (FSM.from_schema TrafficLightState.Red get_schema)
      TrafficLightState.Yellow).1,
   (claim_C6_table_immutable TrafficLightState.dbg TrafficLightEvent.dbg
      TrafficLightState.dbg createTrafficLight TrafficLightEvent.RedTimeout
      (FSM.from_schema TrafficLightState.Red get_schema)
      TrafficLightState.Yellow).2.2.1
      (FSM.from_schema TrafficLightState.Yellow get_schema) rfl⟩

/-- Step 1 of the traffic-light scenario: `trigger(RedTimeout)` from `Red`. -/
def tlStep1 :
    Except String Unit
    × StateMachine TrafficLightState TrafficLightEvent String
    × List (TraceEv TrafficLightState String) :=
  createTrafficLight.trigger TrafficLightState.dbg TrafficLightEvent.dbg
    TrafficLightEvent.RedTimeout

/-- Step 2: `trigger(Yellow2GreenTimeout)` from the machine after step 1. -/
def tlStep2 :
    Except String Unit
    × StateMachine TrafficLightState TrafficLightEvent String
    × List (TraceEv TrafficLightState String) :=
  tlStep1.2.1.trigger TrafficLightState.dbg TrafficLightEvent.dbg
    TrafficLightEvent.Yellow2GreenTimeout

/-- Step 3: `trigger(GreenTimeout)` from the machine after step 2. -/
def tlStep3 :
    Except String Unit
    × StateMachine TrafficLightState TrafficLightEvent String
    × List (TraceEv TrafficLightState String) :=
  tlStep2.2.1.trigger TrafficLightState.dbg TrafficLightEvent.dbg
    TrafficLightEvent.GreenTimeout

/-- Step 4: `trigger(Yellow2RedTimeout)` from the machine after step 3. -/
def tlStep4 :
    Except String Unit
    × StateMachine TrafficLightState TrafficLightEvent String
    × List (TraceEv TrafficLightState String) :=
  tlStep3.2.1.trigger TrafficLightState.dbg TrafficLightEvent.dbg
    TrafficLightEvent.Yellow2RedTimeout

/-- Step 5: `trigger(GreenTimeout)` again, now from `Red`. -/
def tlStep5 :
    Except String Unit
    × StateMachine TrafficLightState TrafficLightEvent String
    × List (TraceEv TrafficLightState String) :=
  tlStep4.2.1.trigger TrafficLightState.dbg TrafficLightEvent.dbg
    TrafficLightEvent.GreenTimeout

/-- Claim C9: end-to-end traffic-light scenario: the four timeout events
each succeed, visiting Yellow, Green, Yellow, Red, and a further
`GreenTimeout` from `Red` fails, leaving the state `Red`. -/
theorem claim_C9_scenario :
    tlStep1.1 = Except.ok ()
    ∧ tlStep1.2.1.stateCall.1 = TrafficLightState.Yellow
    ∧ tlStep2.1 = Except.ok ()
    ∧ tlStep2.2.1.stateCall.1 = TrafficLightState.Green
    ∧ tlStep3.1 = Except.ok ()
    ∧ tlStep3.2.1.stateCall.1 = TrafficLightState.Yellow
    ∧ tlStep4.1 = Except.ok ()
    ∧ tlStep4.2.1.stateCall.1 = TrafficLightState.Red
    ∧ tlStep5.1 = Except.error
        "No transition found for event \x27GreenTimeout\x27 from state \x27Red\x27"
    ∧ tlStep5.2.1.stateCall.1 = TrafficLightState.Red :=
  ⟨rfl, rfl, rfl, rfl, rfl, rfl, rfl, rfl, rfl, rfl⟩

theorem FSM.from_schema_get? {T : Type} [DecidableEq T] (initial : T)
    (es : List (T × T)) (p : T × T) :
    (FSM.from_schema initial es).schema.get? p
      = if p ∈ es then some true else none := by
  unfold FSM.from_schema
  rw [HMap.get?_foldl_insert_true es HMap.empty p, HMap.get?_empty]
  by_cases hp : p ∈ es
  · rw [if_pos hp, if_pos hp]
  · rw [if_neg hp, if_neg hp]

theorem FSM.from_schema_change_state {T : Type} [DecidableEq T] (initial : T)
    (es : List (T × T)) (dbg : T → String) (to_state : T) :
    (FSM.from_schema initial es).change_state dbg to_state
      = if (initial, to_state) ∈ es
        then Except.ok { FSM.from_schema initial es with state := to_state }
        else Except.error ("unable change \x60" ++ dbg initial
          ++ "\x60 -> \x60" ++ dbg to_state ++ "\x60") := by
  have hs : (FSM.from_schema initial es).state = initial := rfl
  by_cases hm : (initial, to_state) ∈ es <;>
    simp [FSM.change_state, hs, FSM.from_schema_get?, hm]

/-- Claim C5: `from_schema(initial, edges)` always succeeds, yields a
machine whose state is `initial` and whose table holds exactly the given
edges as a set (lookup succeeds precisely on listed edges, with one entry
per distinct edge), and any two edge lists denoting the same set of pairs
yield machines with identical behavior: same `state()`, same
success/failure of every `change_state`, identical panic messages, and
observably equal successor machines. -/
theorem claim_C5_from_schema_set {T : Type} [DecidableEq T] (initial : T)
    (es1 es2 : List (T × T)) (h : ∀ p, p ∈ es1 ↔ p ∈ es2) :
    (FSM.from_schema initial es1).state = initial
    ∧ (∀ p, (FSM.from_schema initial es1).schema.get? p
        = if p ∈ es1 then some true else none)
    ∧ (FSM.from_schema initial es1).schema.keys.Nodup
    ∧ (FSM.from_schema initial es1).stateRef
        = (FSM.from_schema initial es2).stateRef
    ∧ (∀ dbg to_state,
        ((FSM.from_schema initial es1).change_state dbg to_state).isOk
          = ((FSM.from_schema initial es2).change_state dbg to_state).isOk)
    ∧ (∀ dbg to_state msg,
        (FSM.from_schema initial es1).change_state dbg to_state
            = Except.error msg
          ↔ (FSM.from_schema initial es2).change_state dbg to_state
            = Except.error msg)
    ∧ (∀ dbg to_state m1 m2,
        (FSM.from_schema initial es1).change_state dbg to_state
            = Except.ok m1 →
        (FSM.from_schema initial es2).change_state dbg to_state
            = Except.ok m2 →
        m1.state = m2.state
          ∧ ∀ p, m1.schema.get? p = m2.schema.get? p) := by
  refine ⟨rfl, FSM.from_schema_get? initial es1, ?_, rfl, ?_, ?_, ?_⟩
  · exact HMap.keys_nodup_foldl_insert_true es1 HMap.empty List.nodup_nil
  · intro dbg to_state
    rw [FSM.from_schema_change_state, FSM.from_schema_change_state]
    by_cases hm : (initial, to_state) ∈ es1
    · rw [if_pos hm, if_pos ((h _).mp hm)]
      rfl
    · rw [if_neg hm, if_neg (fun hc => hm ((h _).mpr hc))]
  · intro dbg to_state msg
    rw [FSM.from_schema_change_state, FSM.from_schema_change_state]
    by_cases hm : (initial, to_state) ∈ es1
    · rw [if_pos hm, if_pos ((h _).mp hm)]
      simp
    · rw [if_neg hm, if_neg (fun hc => hm ((h _).mpr hc))]
  · intro dbg to_state m1 m2 h1 h2
    rw [FSM.from_schema_change_state] at h1 h2
    by_cases hm : (initial, to_state) ∈ es1
    · rw [if_pos hm] at h1
      rw [if_pos ((h _).mp hm)] at h2
      cases h1
      cases h2
      refine ⟨rfl, ?_⟩
      intro p
      show (FSM.from_schema initial es1).schema.get? p
        = (FSM.from_schema initial es2).schema.get? p
      rw [FSM.from_schema_get?, FSM.from_schema_get?]
      by_cases hp : p ∈ es1
      · rw [if_pos hp, if_pos ((h _).mp hp)]
      · rw [if_neg hp, if_neg (fun hc => hp ((h _).mpr hc))]
    · rw [if_neg hm] at h1
      exact absurd h1 (by simp)

/-- Witness for C5: two concretely different edge lists (one with a
duplicate, in a different order) denoting the same set of pairs. -/
theorem claim_C5_witness :
    (FSM.from_schema TrafficLightState.Red
      [(TrafficLightState.Red, TrafficLightState.Yellow),
       (TrafficLightState.Red, TrafficLightState.Yellow),
       (TrafficLightState.Yellow, TrafficLightState.Green)]).state
      = TrafficLightState.Red
    ∧ (FSM.from_schema TrafficLightState.Red
        [(TrafficLightState.Red, TrafficLightState.Yellow),
         (TrafficLightState.Red, TrafficLightState.Yellow),
         (TrafficLightState.Yellow, TrafficLightState.Green)]).stateRef
      = (FSM.from_schema TrafficLightState.Red
          [(TrafficLightState.Yellow, TrafficLightState.Green),
           (TrafficLightState.Red, TrafficLightState.Yellow)]).stateRef :=
  ⟨(claim_C5_from_schema_set TrafficLightState.Red
      [(TrafficLightState.Red, TrafficLightState.Yellow),
       (TrafficLightState.Red, TrafficLightState.Yellow),
       (TrafficLightState.Yellow, TrafficLightState.Green)]
      [(TrafficLightState.Yellow, TrafficLightState.Green),
       (TrafficLightState.Red, TrafficLightState.Yellow)]
      (by intro p; constructor <;> (intro hp; simp_all [List.mem_cons]) <;>
        tauto)).1,
   (claim_C5_from_schema_set TrafficLightState.Red
      [(TrafficLightState.Red, TrafficLightState.Yellow),
       (TrafficLightState.Red, TrafficLightState.Yellow),
       (TrafficLightState.Yellow, TrafficLightState.Green)]
      [(TrafficLightState.Yellow, TrafficLightState.Green),
       (TrafficLightState.Red, TrafficLightState.Yellow)]
      (by intro p; constructor <;> (intro hp; simp_all [List.mem_cons]) <;>
        tauto)).2.2.2.1⟩
